import Mathlib

/-!
Shallow embedding of two Rucio REST handler modules:
`lib/rucio/web/rest/flaskapi/v1/account_limit.py` (classes `LocalAccountLimit`
and `GlobalAccountLimit`, methods `post` and `delete`) and
`lib/rucio/web/rest/flaskapi/v1/dirac.py` (class `AddFiles`, method `post`).

Each handler decodes a JSON request body, extracts required fields with a
Python subscript, calls one downstream service operation and translates the
outcome into an HTTP response.  The downstream operations
(`set_local_account_limit`, `set_global_account_limit`, their deletion
variants and `add_files`) are external collaborators, so the handlers are
embedded as functions of the decode result of the body and of the outcome the
downstream call would yield.  Path parameters and the caller identity are
forwarded unchanged to the downstream call and never influence the response,
so they are not part of the state.

A handler returns `Except PyExc Response`: `Except.ok r` means the handler
returned the HTTP response `r`, while `Except.error e` means the Python
exception `e` escaped the handler body (the `raise` on the `KeyError` path of
the limit-creation handlers).
-/

namespace RucioRest

/-- JSON values as produced by `json.loads` / `parse_response` on the request
body.  Numbers are embedded as integers; the handlers never inspect numeric
values, only presence of keys and the top-level shape. -/
inductive Json where
| obj : List (String × Json) → Json
| arr : List Json → Json
| str : String → Json
| num : Int → Json
| bool : Bool → Json
| null : Json

/-- Python exceptions that a subscript `parameter[key]` on a decoded JSON
value can raise: `KeyError` (carrying the missing key) on a dict without the
key, `TypeError` (carrying the interpreter message) on any non-dict value. -/
inductive PyExc where
| keyError (key : String)
| typeError (msg : String)
deriving DecidableEq

/-- HTTP responses a handler can return: the structured error body built by
`generate_http_error_flask`, or a plain `(body, status)` pair such as
`('Created', 201)`, `('', 200)` and `(str(error), 500)`. -/
inductive Response where
| error (status : Nat) (kind : String) (message : String)
| text (body : String) (status : Nat)
deriving DecidableEq

/-- Status code of a response. -/
def Response.status : Response → Nat
| .error s _ _ => s
| .text _ s => s

/-- Status code of a handler result: `none` when an exception escaped the
handler instead of an HTTP response being returned. -/
def statusOf : Except PyExc Response → Option Nat
| .ok r => some (r.status)
| .error _ => none

/-- Embedding of `generate_http_error_flask(status, kind, message)` from
`rucio/web/rest/utils.py`: a structured error response. -/
def generate_http_error_flask (status : Nat) (kind : String) (message : String) : Response :=
Response.error status kind message

/-- Key lookup in a decoded JSON object.  `json.loads` builds a Python dict,
where a duplicated key keeps the last occurrence, so the lookup prefers the
last binding of the key. -/
def jsonLookup : List (String × Json) → String → Option Json
| [], _ => none
| (k, v) :: rest, key =>
  match jsonLookup rest key with
  | some w => some w
  | none => if k == key then some v else none

/-- Python `str(error)` for the modelled exceptions: `str` of a `KeyError` is
the `repr` of the missing key (the key in single quotes); `str` of a
`TypeError` is its message. -/
def pyStr : PyExc → String
| .keyError k => "'" ++ k ++ "'"
| .typeError m => m

/-- Python subscript `parameter[key]` on a value decoded from JSON: dict
lookup raising `KeyError(key)` when the key is absent, `TypeError` on every
non-dict value (list, str, int, bool, None). -/
def pySubscript : Json → String → Except PyExc Json
| .obj l, key =>
  match jsonLookup l key with
  | some v => Except.ok v
  | none => Except.error (PyExc.keyError key)
| .arr _, _ => Except.error (PyExc.typeError "list indices must be integers or slices, not str")
| .str _, _ => Except.error (PyExc.typeError "string indices must be integers")
| .num _, _ => Except.error (PyExc.typeError "'int' object is not subscriptable")
| .bool _, _ => Except.error (PyExc.typeError "'bool' object is not subscriptable")
| .null, _ => Except.error (PyExc.typeError "'NoneType' object is not subscriptable")

/-- Outcome of a downstream account-limit api call
(`set_local_account_limit`, `delete_local_account_limit`,
`set_global_account_limit`, `delete_global_account_limit`): success, one of
the three exception kinds the handlers catch by name, or any other exception
(caught by the generic `except Exception` clause, with `str(error)` as text). -/
inductive LimitOutcome where
| success
| accessDenied (msg : String)
| rseNotFound (msg : String)
| accountNotFound (msg : String)
| otherError (text : String)

namespace LocalAccountLimit

/-- Embedding of `LocalAccountLimit.post` (account_limit.py lines 49-87).
`decoded` is the result of `loads(request.data)` (`Except.error ()` when
`loads` raised `ValueError`); `outcome` is what `set_local_account_limit`
yields when reached.  The `KeyError` branch returns 400 only when the missing
key equals the literal `type`; otherwise the code re-raises, embedded as
`Except.error`. -/
def post (decoded : Except Unit Json) (outcome : LimitOutcome) : Except PyExc Response :=
match decoded with
| .error _ => Except.ok (generate_http_error_flask 400 "ValueError" "cannot decode json parameter dictionary")
| .ok parameter =>
  match pySubscript parameter "bytes" with
  | .error (.keyError k) =>
    if k == "type" then
      Except.ok (generate_http_error_flask 400 "KeyError" (pyStr (PyExc.keyError k) ++ " not defined"))
    else
      Except.error (PyExc.keyError k)
  | .error (.typeError _) => Except.ok (generate_http_error_flask 400 "TypeError" "body must be a json dictionary")
  | .ok _ =>
    match outcome with
    | .success => Except.ok (Response.text "Created" 201)
    | .accessDenied m => Except.ok (generate_http_error_flask 401 "AccessDenied" m)
    | .rseNotFound m => Except.ok (generate_http_error_flask 404 "RSENotFound" m)
    | .accountNotFound m => Except.ok (generate_http_error_flask 404 "AccountNotFound" m)
    | .otherError t => Except.ok (Response.text t 500)

/-- Embedding of `LocalAccountLimit.delete` (account_limit.py lines 89-112):
no body is read; the response only translates the downstream outcome. -/
def delete (outcome : LimitOutcome) : Except PyExc Response :=
match outcome with
| .success => Except.ok (Response.text "" 200)
| .accessDenied m => Except.ok (generate_http_error_flask 401 "AccessDenied" m)
| .accountNotFound m => Except.ok (generate_http_error_flask 404 "AccountNotFound" m)
| .rseNotFound m => Except.ok (generate_http_error_flask 404 "RSENotFound" m)
| .otherError t => Except.ok (Response.text t 500)

end LocalAccountLimit

namespace GlobalAccountLimit

/-- Embedding of `GlobalAccountLimit.post` (account_limit.py lines 116-154);
the body is line for line that of `LocalAccountLimit.post`, the downstream
call being `set_global_account_limit` with the `rse_expression` path
parameter instead of `set_local_account_limit` with `rse`. -/
def post (decoded : Except Unit Json) (outcome : LimitOutcome) : Except PyExc Response :=
match decoded with
| .error _ => Except.ok (generate_http_error_flask 400 "ValueError" "cannot decode json parameter dictionary")
| .ok parameter =>
  match pySubscript parameter "bytes" with
  | .error (.keyError k) =>
    if k == "type" then
      Except.ok (generate_http_error_flask 400 "KeyError" (pyStr (PyExc.keyError k) ++ " not defined"))
    else
      Except.error (PyExc.keyError k)
  | .error (.typeError _) => Except.ok (generate_http_error_flask 400 "TypeError" "body must be a json dictionary")
  | .ok _ =>
    match outcome with
    | .success => Except.ok (Response.text "Created" 201)
    | .accessDenied m => Except.ok (generate_http_error_flask 401 "AccessDenied" m)
    | .rseNotFound m => Except.ok (generate_http_error_flask 404 "RSENotFound" m)
    | .accountNotFound m => Except.ok (generate_http_error_flask 404 "AccountNotFound" m)
    | .otherError t => Except.ok (Response.text t 500)

/-- Embedding of `GlobalAccountLimit.delete` (account_limit.py lines 156-179). -/
def delete (outcome : LimitOutcome) : Except PyExc Response :=
match outcome with
| .success => Except.ok (Response.text "" 200)
| .accessDenied m => Except.ok (generate_http_error_flask 401 "AccessDenied" m)
| .accountNotFound m => Except.ok (generate_http_error_flask 404 "AccountNotFound" m)
| .rseNotFound m => Except.ok (generate_http_error_flask 404 "RSENotFound" m)
| .otherError t => Except.ok (Response.text t 500)

end GlobalAccountLimit

/-- Outcome of the downstream `add_files` call in dirac.py: success, one of
the eight exception kinds caught by name, any other `RucioException` subclass
(carrying its own class name, caught by the `except RucioException` clause),
or any other exception (caught by the generic `except Exception` clause). -/
inductive DiracOutcome where
| success
| invalidPath (msg : String)
| accessDenied (msg : String)
| unsupportedOperation (msg : String)
| duplicate (msg : String)
| dataIdentifierAlreadyExists (msg : String)
| rseNotFound (msg : String)
| databaseException (msg : String)
| resourceTemporaryUnavailable (msg : String)
| rucioException (className : String) (msg : String)
| otherException (text : String)

namespace AddFiles

/-- Embedding of `AddFiles.post` (dirac.py lines 40-83).  `decoded` is the
result of `parse_response(request.data)` (`Except.error ()` when it raised
`ValueError` or `InvalidType`).  The subscript `parameters['lfns']` is
evaluated inside the big try block, before `add_files` is called, so a
`KeyError` or `TypeError` there is caught by the final `except Exception`
clause and answered with `(str(error), 500)`.  The second component of the
result records whether `add_files` was invoked. -/
def post (decoded : Except Unit Json) (outcome : DiracOutcome) : Except PyExc Response × Bool :=
match decoded with
| .error _ => (Except.ok (generate_http_error_flask 400 "ValueError" "Cannot decode json parameter list"), false)
| .ok parameters =>
  match pySubscript parameters "lfns" with
  | .error e => (Except.ok (Response.text (pyStr e) 500), false)
  | .ok _ =>
    match outcome with
    | .success => (Except.ok (Response.text "Created" 201), true)
    | .invalidPath m => (Except.ok (generate_http_error_flask 400 "InvalidPath" m), true)
    | .accessDenied m => (Except.ok (generate_http_error_flask 401 "AccessDenied" m), true)
    | .unsupportedOperation m => (Except.ok (generate_http_error_flask 405 "UnsupportedOperation" m), true)
    | .duplicate m => (Except.ok (generate_http_error_flask 409 "Duplicate" m), true)
    | .dataIdentifierAlreadyExists m => (Except.ok (generate_http_error_flask 409 "DataIdentifierAlreadyExists" m), true)
    | .rseNotFound m => (Except.ok (generate_http_error_flask 404 "RSENotFound" m), true)
    | .databaseException m => (Except.ok (generate_http_error_flask 503 "DatabaseException" m), true)
    | .resourceTemporaryUnavailable m => (Except.ok (generate_http_error_flask 503 "ResourceTemporaryUnavailable" m), true)
    | .rucioException c m => (Except.ok (generate_http_error_flask 500 c m), true)
    | .otherException t => (Except.ok (Response.text t 500), true)

end AddFiles

/-- A key present in the decoded object makes the subscript succeed. -/
theorem pySubscript_found (l : List (String × Json)) (key : String)
    (h : (jsonLookup l key).isSome = true) :
    ∃ v, pySubscript (Json.obj l) key = Except.ok v := by
  cases hl : jsonLookup l key with
  | none => rw [hl] at h; simp at h
  | some v => exact ⟨v, by simp [pySubscript, hl]⟩

/-- A key absent from the decoded object makes the subscript raise the
corresponding `KeyError`. -/
theorem pySubscript_missing (l : List (String × Json)) (key : String)
    (h : (jsonLookup l key).isSome = false) :
    pySubscript (Json.obj l) key = Except.error (PyExc.keyError key) := by
  cases hl : jsonLookup l key with
  | none => simp [pySubscript, hl]
  | some v => rw [hl] at h; simp at h

/-- C1: the claim fails on the code.  At the failing input, a body decoding
to the empty JSON object (which lacks the key `bytes`), both limit-creation
handlers re-raise the `KeyError` instead of returning the HTTP 400 `KeyError`
response the claim states: the guard compares the missing key against the
literal `type`, never against `bytes`, so the 400 branch is unreachable and
the exception escapes the handler. -/
theorem C1_missing_bytes_keyError_escapes :
    LocalAccountLimit.post (Except.ok (Json.obj [])) LimitOutcome.success
        = Except.error (PyExc.keyError "bytes")
    ∧ GlobalAccountLimit.post (Except.ok (Json.obj [])) LimitOutcome.success
        = Except.error (PyExc.keyError "bytes") :=
  ⟨rfl, rfl⟩

/-- C2: the claim fails on the code.  On a body decoding to a JSON object
without the key `bytes`, the limit-creation handlers terminate by raising,
not by returning an HTTP response: `statusOf` is `none` because the
re-raised `KeyError` propagates past the handler boundary. -/
theorem C2_limit_post_escapes_handler_boundary :
    statusOf (LocalAccountLimit.post (Except.ok (Json.obj [("foo", Json.null)]))
        LimitOutcome.success) = none :=
  rfl

/-- C3 counterexample: on the body `\x7b\x7d` (a JSON object without `lfns`)
the bulk-registration handler does not return HTTP 400: the `KeyError` from
`parameters['lfns']` is caught by the generic `except Exception` clause,
which answers 500. -/
theorem C3_missing_lfns_not_400 :
    statusOf (AddFiles.post (Except.ok (Json.obj [])) DiracOutcome.success).1 ≠ some 400 := by
  decide

/-- C3 amended: for every request body that decodes to a JSON object not
containing the key `lfns`, `AddFiles.post` returns HTTP 500 with the
stringified `KeyError` as plain-text body and never invokes the downstream
`add_files` operation. -/
theorem C3_missing_lfns_500_never_invokes (l : List (String × Json))
    (h : (jsonLookup l "lfns").isSome = false) (o : DiracOutcome) :
    AddFiles.post (Except.ok (Json.obj l)) o
      = (Except.ok (Response.text (pyStr (PyExc.keyError "lfns")) 500), false) := by
  have hs := pySubscript_missing l "lfns" h
  simp [AddFiles.post, hs]

/-- C3 amended, witness: the empty JSON object. -/
theorem C3_missing_lfns_500_never_invokes_witness :
    AddFiles.post (Except.ok (Json.obj [])) DiracOutcome.success
      = (Except.ok (Response.text (pyStr (PyExc.keyError "lfns")) 500), false) :=
  C3_missing_lfns_500_never_invokes [] (by decide) DiracOutcome.success

/-- C4 counterexample: `InvalidPath` is a recognized domain error raised by
`add_files` and is not among the seven kinds the claim excludes, yet the
handler answers it with HTTP 400, not 500. -/
theorem C4_invalidPath_not_500 :
    statusOf (AddFiles.post (Except.ok (Json.obj [("lfns", Json.arr [])]))
        (DiracOutcome.invalidPath "p")).1 ≠ some 500 := by
  decide

/-- C4 amended: for every recognized domain error raised by `add_files`
other than InvalidPath, AccessDenied, RSENotFound, UnsupportedOperation,
Duplicate, DataIdentifierAlreadyExists, DatabaseException and
ResourceTemporaryUnavailable, the handler returns HTTP 500 with the error's
own class name as the error kind. -/
theorem C4_other_domain_errors_500 (l : List (String × Json))
    (h : (jsonLookup l "lfns").isSome = true) (c m : String) :
    (AddFiles.post (Except.ok (Json.obj l)) (DiracOutcome.rucioException c m)).1
      = Except.ok (Response.error 500 c m) := by
  obtain ⟨v, hv⟩ := pySubscript_found l "lfns" h
  simp [AddFiles.post, hv, generate_http_error_flask]

/-- C4 amended, witness: a body with an `lfns` list and an unlisted domain
error class. -/
theorem C4_other_domain_errors_500_witness :
    (AddFiles.post (Except.ok (Json.obj [("lfns", Json.arr [])]))
        (DiracOutcome.rucioException "InvalidObject" "x")).1
      = Except.ok (Response.error 500 "InvalidObject" "x") :=
  C4_other_domain_errors_500 [("lfns", Json.arr [])] (by decide) "InvalidObject" "x"

/-- C5: for every request body whose bytes are not valid JSON, the two
limit-creation handlers return 400 with kind `ValueError` and message
`cannot decode json parameter dictionary`, and the bulk-registration handler
returns 400 with kind `ValueError` and message
`Cannot decode json parameter list`, whatever the downstream outcome would
have been. -/
theorem C5_malformed_json_400_ValueError (o : LimitOutcome) (d : DiracOutcome) :
    LocalAccountLimit.post (Except.error ()) o
        = Except.ok (Response.error 400 "ValueError" "cannot decode json parameter dictionary")
    ∧ GlobalAccountLimit.post (Except.error ()) o
        = Except.ok (Response.error 400 "ValueError" "cannot decode json parameter dictionary")
    ∧ (AddFiles.post (Except.error ()) d).1
        = Except.ok (Response.error 400 "ValueError" "Cannot decode json parameter list") :=
  ⟨rfl, rfl, rfl⟩

/-- Whether a decoded JSON value is an object (a Python dict). -/
def Json.isObj : Json → Bool
| .obj _ => true
| _ => false

/-- C6: for every request body that is valid JSON but decodes to a non-object
value (array, string, number, boolean or null), both limit-creation handlers
return HTTP 400 with kind `TypeError` and message
`body must be a json dictionary`, whatever the downstream outcome. -/
theorem C6_non_object_400_TypeError (j : Json) (h : j.isObj = false) (o : LimitOutcome) :
    LocalAccountLimit.post (Except.ok j) o
        = Except.ok (Response.error 400 "TypeError" "body must be a json dictionary")
    ∧ GlobalAccountLimit.post (Except.ok j) o
        = Except.ok (Response.error 400 "TypeError" "body must be a json dictionary") := by
  cases j with
  | obj l => simp [Json.isObj] at h
  | arr a => exact ⟨rfl, rfl⟩
  | str s => exact ⟨rfl, rfl⟩
  | num n => exact ⟨rfl, rfl⟩
  | bool b => exact ⟨rfl, rfl⟩
  | null => exact ⟨rfl, rfl⟩

/-- C6, witness: a JSON array body. -/
theorem C6_non_object_400_TypeError_witness :
    LocalAccountLimit.post (Except.ok (Json.arr [])) LimitOutcome.success
        = Except.ok (Response.error 400 "TypeError" "body must be a json dictionary")
    ∧ GlobalAccountLimit.post (Except.ok (Json.arr [])) LimitOutcome.success
        = Except.ok (Response.error 400 "TypeError" "body must be a json dictionary") :=
  C6_non_object_400_TypeError (Json.arr []) (by decide) LimitOutcome.success

/-- C7: for each of the five operations, a downstream `AccessDenied` outcome
is answered with HTTP 401, kind `AccessDenied` and the error's message.  For
the creation handlers the body must reach the downstream call, so it decodes
to an object providing the required key. -/
theorem C7_accessDenied_401 (m : String) (lb ll : List (String × Json))
    (hb : (jsonLookup lb "bytes").isSome = true)
    (hl : (jsonLookup ll "lfns").isSome = true) :
    LocalAccountLimit.post (Except.ok (Json.obj lb)) (LimitOutcome.accessDenied m)
        = Except.ok (Response.error 401 "AccessDenied" m)
    ∧ GlobalAccountLimit.post (Except.ok (Json.obj lb)) (LimitOutcome.accessDenied m)
        = Except.ok (Response.error 401 "AccessDenied" m)
    ∧ LocalAccountLimit.delete (LimitOutcome.accessDenied m)
        = Except.ok (Response.error 401 "AccessDenied" m)
    ∧ GlobalAccountLimit.delete (LimitOutcome.accessDenied m)
        = Except.ok (Response.error 401 "AccessDenied" m)
    ∧ (AddFiles.post (Except.ok (Json.obj ll)) (DiracOutcome.accessDenied m)).1
        = Except.ok (Response.error 401 "AccessDenied" m) := by
  obtain ⟨vb, hvb⟩ := pySubscript_found lb "bytes" hb
  obtain ⟨vl, hvl⟩ := pySubscript_found ll "lfns" hl
  refine ⟨?_, ?_, rfl, rfl, ?_⟩
  · simp [LocalAccountLimit.post, hvb, generate_http_error_flask]
  · simp [GlobalAccountLimit.post, hvb, generate_http_error_flask]
  · simp [AddFiles.post, hvl, generate_http_error_flask]

/-- C7, witness: concrete bodies providing `bytes` and `lfns`. -/
theorem C7_accessDenied_401_witness :
    LocalAccountLimit.post (Except.ok (Json.obj [("bytes", Json.num 0)]))
        (LimitOutcome.accessDenied "denied")
      = Except.ok (Response.error 401 "AccessDenied" "denied") :=
  (C7_accessDenied_401 "denied" [("bytes", Json.num 0)] [("lfns", Json.arr [])]
    (by decide) (by decide)).1

/-- C8: the enumerated downstream error kinds of `add_files` map exactly to
the stated statuses: UnsupportedOperation to 405, Duplicate to 409,
DataIdentifierAlreadyExists to 409, DatabaseException to 503,
ResourceTemporaryUnavailable to 503, RSENotFound to 404, each with its kind
name and the error's message. -/
theorem C8_addfiles_error_mapping (m : String) (l : List (String × Json))
    (h : (jsonLookup l "lfns").isSome = true) :
    (AddFiles.post (Except.ok (Json.obj l)) (DiracOutcome.unsupportedOperation m)).1
        = Except.ok (Response.error 405 "UnsupportedOperation" m)
    ∧ (AddFiles.post (Except.ok (Json.obj l)) (DiracOutcome.duplicate m)).1
        = Except.ok (Response.error 409 "Duplicate" m)
    ∧ (AddFiles.post (Except.ok (Json.obj l)) (DiracOutcome.dataIdentifierAlreadyExists m)).1
        = Except.ok (Response.error 409 "DataIdentifierAlreadyExists" m)
    ∧ (AddFiles.post (Except.ok (Json.obj l)) (DiracOutcome.databaseException m)).1
        = Except.ok (Response.error 503 "DatabaseException" m)
    ∧ (AddFiles.post (Except.ok (Json.obj l)) (DiracOutcome.resourceTemporaryUnavailable m)).1
        = Except.ok (Response.error 503 "ResourceTemporaryUnavailable" m)
    ∧ (AddFiles.post (Except.ok (Json.obj l)) (DiracOutcome.rseNotFound m)).1
        = Except.ok (Response.error 404 "RSENotFound" m) := by
  obtain ⟨v, hv⟩ := pySubscript_found l "lfns" h
  refine ⟨?_, ?_, ?_, ?_, ?_, ?_⟩ <;>  simp [AddFiles.post, hv, generate_http_error_flask]

/-- C8, witness: a body with an `lfns` list and a `Duplicate` outcome. -/
theorem C8_addfiles_error_mapping_witness :
    (AddFiles.post (Except.ok (Json.obj [("lfns", Json.arr [])]))
        (DiracOutcome.duplicate "dup")).1
      = Except.ok (Response.error 409 "Duplicate" "dup") :=
  (C8_addfiles_error_mapping "dup" [("lfns", Json.arr [])] (by decide)).2.1

/-- C9: a successful downstream call makes the two deletion handlers answer
200 with an empty body and the three creation handlers answer 201 with the
literal body `Created`. -/
theorem C9_success_responses (lb ll : List (String × Json))
    (hb : (jsonLookup lb "bytes").isSome = true)
    (hl : (jsonLookup ll "lfns").isSome = true) :
    LocalAccountLimit.delete LimitOutcome.success = Except.ok (Response.text "" 200)
    ∧ GlobalAccountLimit.delete LimitOutcome.success = Except.ok (Response.text "" 200)
    ∧ LocalAccountLimit.post (Except.ok (Json.obj lb)) LimitOutcome.success
        = Except.ok (Response.text "Created" 201)
    ∧ GlobalAccountLimit.post (Except.ok (Json.obj lb)) LimitOutcome.success
        = Except.ok (Response.text "Created" 201)
    ∧ (AddFiles.post (Except.ok (Json.obj ll)) DiracOutcome.success).1
        = Except.ok (Response.text "Created" 201) := by
  obtain ⟨vb, hvb⟩ := pySubscript_found lb "bytes" hb
  obtain ⟨vl, hvl⟩ := pySubscript_found ll "lfns" hl
  refine ⟨rfl, rfl, ?_, ?_, ?_⟩
  · simp [LocalAccountLimit.post, hvb]
  · simp [GlobalAccountLimit.post, hvb]
  · simp [AddFiles.post, hvl]

/-- C9, witness: concrete bodies providing `bytes` and `lfns`. -/
theorem C9_success_responses_witness :
    LocalAccountLimit.post (Except.ok (Json.obj [("bytes", Json.num 100)]))
        LimitOutcome.success = Except.ok (Response.text "Created" 201) :=
  (C9_success_responses [("bytes", Json.num 100)] [("lfns", Json.arr [])]
    (by decide) (by decide)).2.2.1

/-- C10: for every decoded body and every downstream outcome,
`LocalAccountLimit.post` and `GlobalAccountLimit.post` produce the same
result: their decode, field-validation and outcome-translation steps are
identical, the two differing only in which downstream operation receives the
forwarded path parameter. -/
theorem C10_local_global_post_equivalent (decoded : Except Unit Json) (o : LimitOutcome) :
    LocalAccountLimit.post decoded o = GlobalAccountLimit.post decoded o :=
  rfl

end RucioRest
